import Mathlib

/-!
# Delivery backend (`backend/main.go`): cache refresh policy, query handlers, order store

A shallow embedding of the Go program.  The package-level variables
(`cachedFoods`, `cachedRestaurants`, `cachedUsers`, `lastCacheUpdate`,
`mockOrders`) become fields of an explicit `State`; every handler is a function
from the request data and the state to a response and the next state.  The
remote API is an oracle `Upstream`, and the state carries the list of upstream
requests issued so far, so that "no upstream call" is a statement about that
list.
-/

namespace Delivery

/-! ## Data model (main.go 17-58) -/

/-- Go `float64`, kept as its IEEE-754 bit pattern: the program never computes
with these values, it only stores and copies them. -/
structure Float64 where
  bits : Nat
deriving DecidableEq, Repr

/-- A Go slice as far as the program can observe it: its elements
(`s[0:len(s)]`) and the spare cells of its backing array (`s[len(s):cap(s)]`),
which hold what earlier, longer contents left there.  A nil slice and an empty
slice of capacity 0 are both `⟨[], []⟩`. -/
structure Slice (α : Type) where
  elems : List α
  spare : List α
deriving DecidableEq, Repr

/-- Go `len(s)`. -/
def Slice.len {α : Type} (s : Slice α) : Nat := s.elems.length

/-- The cells of the backing array from the first element up to the capacity. -/
def Slice.cells {α : Type} (s : Slice α) : List α := s.elems ++ s.spare

/-- The nil slice, the zero value of every `[]T`. -/
def Slice.nil {α : Type} : Slice α := ⟨[], []⟩

/-- A slice holding exactly `xs`, with no spare capacity. -/
def Slice.ofList {α : Type} (xs : List α) : Slice α := ⟨xs, []⟩

structure User where
  ID : Int
  Name : String
  Email : String
  Phone : String
  Address : String
  Avatar : String
deriving DecidableEq, Repr

structure Restaurant where
  ID : Int
  Name : String
  Description : String
  Image : String
  Category : String
  Rating : Float64
  DeliveryTime : String
  DeliveryFee : Float64
  Address : String
deriving DecidableEq, Repr

structure Food where
  ID : Int
  Name : String
  Description : String
  Image : String
  Price : Float64
  Category : String
  Tags : Slice String
  RestaurantID : Int
  Available : Bool
deriving DecidableEq, Repr

structure Order where
  ID : Int
  UserID : Int
  Items : List Food
  Total : Float64
  Status : String
  CreatedAt : String
  CustomerName : String
deriving DecidableEq, Repr

/-- The zero value of `User`. -/
def User.zero : User := ⟨0, "", "", "", "", ""⟩

/-- The zero value of `Restaurant`. -/
def Restaurant.zero : Restaurant := ⟨0, "", "", "", "", ⟨0⟩, "", ⟨0⟩, ""⟩

/-- The zero value of `Food`. -/
def Food.zero : Food := ⟨0, "", "", "", ⟨0⟩, "", Slice.nil, 0, false⟩

/-- The seed of the order store (main.go 74-102).  `createdAt m` stands for
`time.Now().Add(m * time.Minute).Format("15:04")` read when the process
starts; the totals are the `float64` values of the literals 45.90, 35.80 and
52.70. -/
def mockOrders (createdAt : Int → String) : List Order :=
  [ { ID := 1, UserID := 1, Items := [], Total := ⟨0x4046f33333333333⟩,
      Status := "Em preparo", CreatedAt := createdAt (-30),
      CustomerName := "João Silva" },
    { ID := 2, UserID := 2, Items := [], Total := ⟨0x4041e66666666666⟩,
      Status := "Saiu para entrega", CreatedAt := createdAt (-15),
      CustomerName := "Ana Souza" },
    { ID := 3, UserID := 3, Items := [], Total := ⟨0x404a59999999999a⟩,
      Status := "Entregue", CreatedAt := createdAt (-60),
      CustomerName := "Pedro Lima" } ]

/-! ## Order store: the scan of `updateOrderStatusHandler` (main.go 358-367) -/

/-- The loop `for i, order := range mockOrders` of `updateOrderStatusHandler`:
at the first order whose `ID` equals `orderID` it assigns
`mockOrders[i].Status = status` and returns `mockOrders[i]`; when the loop
runs off the end nothing was assigned and there is no order to return.  The
second component is the store after the call. -/
def updateStatus (orderID : Int) (status : String) : List Order → Option Order × List Order
  | [] => (none, [])
  | order :: rest =>
    if order.ID = orderID then
      (some { order with Status := status }, { order with Status := status } :: rest)
    else
      ((updateStatus orderID status rest).1, order :: (updateStatus orderID status rest).2)

/-! ## `strconv.Atoi` / `strconv.ParseInt(s, 10, 64)` -/

/-- The value of an ASCII decimal digit. -/
def digitVal (c : Char) : Option Nat :=
  if 48 ≤ c.toNat ∧ c.toNat ≤ 57 then some (c.toNat - 48) else none

/-- The digit loop of `strconv.ParseUint` in base 10: every character has to be
a digit; `acc` is the value read so far. -/
def parseDigits : List Char → Nat → Option Nat
  | [], acc => some acc
  | c :: cs, acc =>
    match digitVal c with
    | some d => parseDigits cs (acc * 10 + d)
    | none => none

/-- The digits after the optional sign: at least one digit, and the magnitude
within what the sign allows in a 64-bit `int` (`limit` is 2^63 for a negative
number and 2^63 - 1 otherwise). -/
def parseMagnitude (ds : List Char) (limit : Nat) : Option Nat :=
  match ds with
  | [] => none
  | _ :: _ =>
    match parseDigits ds 0 with
    | some n => if n ≤ limit then some n else none
    | none => none

/-- Go `strconv.Atoi` on a 64-bit platform (the same function as
`strconv.ParseInt(s, 10, 64)`): an optional `+` or `-`, then one or more
decimal digits, the value within `[-2^63, 2^63 - 1]`.  `none` is a non-nil
error (`ErrSyntax` or `ErrRange`). -/
def Atoi (s : String) : Option Int :=
  match s.toList with
  | [] => none
  | c :: cs =>
    if c = '-' then (parseMagnitude cs (2 ^ 63)).map (fun n => -(n : Int))
    else if c = '+' then (parseMagnitude cs (2 ^ 63 - 1)).map (fun n => (n : Int))
    else (parseMagnitude (c :: cs) (2 ^ 63 - 1)).map (fun n => (n : Int))

/-! ## `encoding/json`: decoding, as the program uses it

The program hands response bodies to `json.Unmarshal(data, &dst)` and the
request body to `json.NewDecoder(r.Body).Decode(&request)`.  The library is
modelled at the level of JSON values: its documented rules for storing a JSON
value into an existing Go value of type `int`, `string`, `float64`, `bool`,
struct and slice. -/

/-- A JSON value.  A number carries its text and the `float64` that
`strconv.ParseFloat(text, 64)` yields for it (`none` when that fails with a
range error); a string is its unquoted content. -/
inductive JValue where
  | null : JValue
  | bool (b : Bool) : JValue
  | num (text : String) (float : Option Float64) : JValue
  | str (s : String) : JValue
  | arr (items : List JValue) : JValue
  | obj (members : List (String × JValue)) : JValue

/-- A response body: either bytes that are not one valid JSON text, or a valid
JSON text, kept as the value it denotes. -/
inductive Bytes where
  | malformed (raw : String) : Bytes
  | json (v : JValue) : Bytes

/-- The case folding under which `encoding/json` compares an object key with a
field name: ASCII letters to upper case, and the two non-ASCII runes whose
simple case folding reaches an ASCII letter (U+017F to S, U+212A to K).  Every
field name of this program is ASCII, so leaving the other runes as they are
gives the same matches. -/
def foldRune (c : Char) : Nat :=
  if c.toNat = 0x17F then 83
  else if c.toNat = 0x212A then 75
  else if 97 ≤ c.toNat ∧ c.toNat ≤ 122 then c.toNat - 32
  else c.toNat

/-- The folded form of a name. -/
def foldName (s : String) : List Nat := s.toList.map foldRune

/-- Whether object key `key` selects the field tagged `field` (an exact match,
or failing that a case-insensitive one). -/
def keyIs (key field : String) : Bool := foldName key == foldName field

/-- Storing a JSON value into an `int`: a number whose text `ParseInt` accepts
is stored; `null` leaves the value; anything else is an
`UnmarshalTypeError` (`false`) and leaves the value. -/
def storeInt (cur : Int) : JValue → Int × Bool
  | .null => (cur, true)
  | .num text _ =>
    match Atoi text with
    | some n => (n, true)
    | none => (cur, false)
  | _ => (cur, false)

/-- Storing a JSON value into a `string`. -/
def storeString (cur : String) : JValue → String × Bool
  | .null => (cur, true)
  | .str s => (s, true)
  | _ => (cur, false)

/-- Storing a JSON value into a `float64`. -/
def storeFloat (cur : Float64) : JValue → Float64 × Bool
  | .null => (cur, true)
  | .num _ (some f) => (f, true)
  | _ => (cur, false)

/-- Storing a JSON value into a `bool`. -/
def storeBool (cur : Bool) : JValue → Bool × Bool
  | .null => (cur, true)
  | .bool b => (b, true)
  | _ => (cur, false)

/-- The members of a JSON object stored one after the other into a struct;
`set` stores one member.  A type error does not stop the decoding: the
remaining members are still stored and the error is reported at the end. -/
def decodeMembers {α : Type} (set : α → String → JValue → α × Bool) :
    α → List (String × JValue) → α × Bool
  | cur, [] => (cur, true)
  | cur, (key, v) :: rest =>
    ((decodeMembers set (set cur key v).1 rest).1,
     (set cur key v).2 && (decodeMembers set (set cur key v).1 rest).2)

/-- Storing a JSON value into a struct: an object is merged into the fields the
struct already has, `null` leaves it, anything else is a type error. -/
def decodeStruct {α : Type} (set : α → String → JValue → α × Bool) (cur : α) :
    JValue → α × Bool
  | .obj members => decodeMembers set cur members
  | .null => (cur, true)
  | _ => (cur, false)

/-- The elements of a JSON array stored into the cells of a backing array
(`d.value(v.Index(i))` in the array loop of the decoder): element `i` is stored
into cell `i` as that cell stands, and into a zero value once the cells run
out (the slice was grown); cells past the last element stay. -/
def decodeCells {α : Type} (dec : α → JValue → α × Bool) (zero : α) :
    List α → List JValue → List α × Bool
  | cells, [] => (cells, true)
  | [], j :: js =>
    ((dec zero j).1 :: (decodeCells dec zero [] js).1,
     (dec zero j).2 && (decodeCells dec zero [] js).2)
  | c :: cs, j :: js =>
    ((dec c j).1 :: (decodeCells dec zero cs js).1,
     (dec c j).2 && (decodeCells dec zero cs js).2)

/-- Storing a JSON value into a slice: an empty array gives a fresh empty
slice; a non-empty array is stored cell by cell into the backing array and the
length set to the number of elements; `null` gives the nil slice; anything
else is a type error and leaves the slice. -/
def decodeSlice {α : Type} (dec : α → JValue → α × Bool) (zero : α) (cur : Slice α) :
    JValue → Slice α × Bool
  | .arr [] => (⟨[], []⟩, true)
  | .arr (j :: js) =>
    (⟨(decodeCells dec zero cur.cells (j :: js)).1.take (j :: js).length,
      (decodeCells dec zero cur.cells (j :: js)).1.drop (j :: js).length⟩,
     (decodeCells dec zero cur.cells (j :: js)).2)
  | .null => (Slice.nil, true)
  | _ => (cur, false)

/-- One object member stored into a `User` (struct tags of main.go 17-24);
a key that selects no field is skipped. -/
def User.setField (u : User) (key : String) (v : JValue) : User × Bool :=
  if keyIs key "id" then ({ u with ID := (storeInt u.ID v).1 }, (storeInt u.ID v).2)
  else if keyIs key "name" then
    ({ u with Name := (storeString u.Name v).1 }, (storeString u.Name v).2)
  else if keyIs key "email" then
    ({ u with Email := (storeString u.Email v).1 }, (storeString u.Email v).2)
  else if keyIs key "phone" then
    ({ u with Phone := (storeString u.Phone v).1 }, (storeString u.Phone v).2)
  else if keyIs key "address" then
    ({ u with Address := (storeString u.Address v).1 }, (storeString u.Address v).2)
  else if keyIs key "avatar" then
    ({ u with Avatar := (storeString u.Avatar v).1 }, (storeString u.Avatar v).2)
  else (u, true)

/-- One object member stored into a `Restaurant` (main.go 26-36). -/
def Restaurant.setField (r : Restaurant) (key : String) (v : JValue) : Restaurant × Bool :=
  if keyIs key "id" then ({ r with ID := (storeInt r.ID v).1 }, (storeInt r.ID v).2)
  else if keyIs key "name" then
    ({ r with Name := (storeString r.Name v).1 }, (storeString r.Name v).2)
  else if keyIs key "description" then
    ({ r with Description := (storeString r.Description v).1 }, (storeString r.Description v).2)
  else if keyIs key "image" then
    ({ r with Image := (storeString r.Image v).1 }, (storeString r.Image v).2)
  else if keyIs key "category" then
    ({ r with Category := (storeString r.Category v).1 }, (storeString r.Category v).2)
  else if keyIs key "rating" then
    ({ r with Rating := (storeFloat r.Rating v).1 }, (storeFloat r.Rating v).2)
  else if keyIs key "delivery_time" then
    ({ r with DeliveryTime := (storeString r.DeliveryTime v).1 },
     (storeString r.DeliveryTime v).2)
  else if keyIs key "delivery_fee" then
    ({ r with DeliveryFee := (storeFloat r.DeliveryFee v).1 }, (storeFloat r.DeliveryFee v).2)
  else if keyIs key "address" then
    ({ r with Address := (storeString r.Address v).1 }, (storeString r.Address v).2)
  else (r, true)

/-- One object member stored into a `Food` (main.go 38-48). -/
def Food.setField (f : Food) (key : String) (v : JValue) : Food × Bool :=
  if keyIs key "id" then ({ f with ID := (storeInt f.ID v).1 }, (storeInt f.ID v).2)
  else if keyIs key "name" then
    ({ f with Name := (storeString f.Name v).1 }, (storeString f.Name v).2)
  else if keyIs key "description" then
    ({ f with Description := (storeString f.Description v).1 }, (storeString f.Description v).2)
  else if keyIs key "image" then
    ({ f with Image := (storeString f.Image v).1 }, (storeString f.Image v).2)
  else if keyIs key "price" then
    ({ f with Price := (storeFloat f.Price v).1 }, (storeFloat f.Price v).2)
  else if keyIs key "category" then
    ({ f with Category := (storeString f.Category v).1 }, (storeString f.Category v).2)
  else if keyIs key "tags" then
    ({ f with Tags := (decodeSlice storeString "" f.Tags v).1 },
     (decodeSlice storeString "" f.Tags v).2)
  else if keyIs key "restaurant_id" then
    ({ f with RestaurantID := (storeInt f.RestaurantID v).1 }, (storeInt f.RestaurantID v).2)
  else if keyIs key "available" then
    ({ f with Available := (storeBool f.Available v).1 }, (storeBool f.Available v).2)
  else (f, true)

/-- Go `json.Unmarshal(data, &dst)`: bytes that are not valid JSON are rejected
before anything is stored; otherwise the value is stored into `dst` as it
stands.  The result is the new `dst` and whether the returned error is nil. -/
def jsonUnmarshal {α : Type} (dec : α → JValue → α × Bool) (dst : α) : Bytes → α × Bool
  | .malformed _ => (dst, false)
  | .json v => dec dst v

/-- Go `json.Unmarshal(data, &dst)` for `dst` of type `[]Food`. -/
def unmarshalFoods (dst : Slice Food) (data : Bytes) : Slice Food × Bool :=
  jsonUnmarshal (decodeSlice (decodeStruct Food.setField) Food.zero) dst data

/-- Go `json.Unmarshal(data, &dst)` for `dst` of type `[]Restaurant`. -/
def unmarshalRestaurants (dst : Slice Restaurant) (data : Bytes) : Slice Restaurant × Bool :=
  jsonUnmarshal (decodeSlice (decodeStruct Restaurant.setField) Restaurant.zero) dst data

/-- Go `json.Unmarshal(data, &dst)` for `dst` of type `[]User`. -/
def unmarshalUsers (dst : Slice User) (data : Bytes) : Slice User × Bool :=
  jsonUnmarshal (decodeSlice (decodeStruct User.setField) User.zero) dst data

/-- One object member stored into the anonymous request struct
`struct { Status string }` of `updateOrderStatusHandler` (main.go 349-351). -/
def statusSetField (status : String) (key : String) (v : JValue) : String × Bool :=
  if keyIs key "status" then storeString status v else (status, true)

/-! ## Upstream client (main.go 60-64, 104-121) -/

/-- What `httpClient.Get` and the read of the body give for one request. -/
inductive HttpGet where
  | failed (err : String) : HttpGet
  | response (statusCode : Nat) (body : Except String Bytes) : HttpGet

/-- The remote API: its answer to a request for `endpoint`, given the requests
issued before it. -/
abbrev Upstream := List String → String → HttpGet

/-- The result of `makeRequest(endpoint)` when `history` lists the requests
issued before: a transport error, a status other than 200 and a failed read
of the body are errors, otherwise the body is returned. -/
def fetch (up : Upstream) (history : List String) (endpoint : String) : Except String Bytes :=
  match up history endpoint with
  | .failed err => .error ("erro ao fazer requisição: " ++ err)
  | .response statusCode body =>
    if statusCode ≠ 200 then .error ("status code: " ++ toString statusCode)
    else
      match body with
      | .error err => .error ("erro ao ler response: " ++ err)
      | .ok data => .ok data

/-! ## Process state -/

/-! Clock readings and durations are integers, in nanoseconds. -/

/-- The zero `time.Time` (January 1, year 1, 00:00 UTC), the initial value of
`lastCacheUpdate`, in nanoseconds relative to the Unix epoch. -/
def zeroTime : Int := -62135596800000000000

/-- Go `time.Since(t)` read at clock value `now`: `now - t`, saturated to the
range of `time.Duration` (a signed 64-bit count of nanoseconds). -/
def Since (now t : Int) : Int :=
  if now - t > 2 ^ 63 - 1 then 2 ^ 63 - 1
  else if now - t < -(2 ^ 63) then -(2 ^ 63)
  else now - t

/-- `cacheDuration = 5 * time.Minute` (main.go 71). -/
def cacheDuration : Int := 5 * 60 * 1000000000

/-- The package-level variables of main.go 66-102, and `requests`: the
endpoints handed to `makeRequest` so far, oldest first. -/
structure State where
  cachedFoods : Slice Food
  cachedRestaurants : Slice Restaurant
  cachedUsers : Slice User
  lastCacheUpdate : Int
  mockOrders : List Order
  requests : List String

/-- The state at process start: empty caches, zero timestamp, seeded orders. -/
def initialState (createdAt : Int → String) : State :=
  { cachedFoods := Slice.nil, cachedRestaurants := Slice.nil, cachedUsers := Slice.nil,
    lastCacheUpdate := zeroTime, mockOrders := mockOrders createdAt, requests := [] }

/-- Go `makeRequest(endpoint)`: one GET to the upstream, recorded in
`requests`. -/
def makeRequest (up : Upstream) (endpoint : String) (s : State) : Except String Bytes × State :=
  (fetch up s.requests endpoint, { s with requests := s.requests ++ [endpoint] })

/-! ## Cache refresh policy (main.go 123-148) -/

/-- The `/foods` step of `updateCacheIfNeeded` (main.go 128-132): on a
successful request the body is unmarshalled into `cachedFoods` itself; the
error of `json.Unmarshal` only decides whether a line is logged. -/
def refreshFoods (up : Upstream) (s : State) : State :=
  match (makeRequest up "/foods" s).1 with
  | .ok data =>
    { (makeRequest up "/foods" s).2 with cachedFoods := (unmarshalFoods s.cachedFoods data).1 }
  | .error _ => (makeRequest up "/foods" s).2

/-- The `/restaurants` step of `updateCacheIfNeeded` (main.go 134-138). -/
def refreshRestaurants (up : Upstream) (s : State) : State :=
  match (makeRequest up "/restaurants" s).1 with
  | .ok data =>
    { (makeRequest up "/restaurants" s).2 with
      cachedRestaurants := (unmarshalRestaurants s.cachedRestaurants data).1 }
  | .error _ => (makeRequest up "/restaurants" s).2

/-- The `/users` step of `updateCacheIfNeeded` (main.go 140-144). -/
def refreshUsers (up : Upstream) (s : State) : State :=
  match (makeRequest up "/users" s).1 with
  | .ok data =>
    { (makeRequest up "/users" s).2 with cachedUsers := (unmarshalUsers s.cachedUsers data).1 }
  | .error _ => (makeRequest up "/users" s).2

/-- Go `updateCacheIfNeeded()`.  `now` is the clock read by `time.Since` on
entry and `done` the clock read by `time.Now()` at the end of a cycle.  The
first component is the returned `error` (`none` is nil). -/
def updateCacheIfNeeded (up : Upstream) (now done : Int) (s : State) : Option String × State :=
  if Since now s.lastCacheUpdate < cacheDuration ∧ s.cachedFoods.len > 0 then (none, s)
  else
    (none, { refreshUsers up (refreshRestaurants up (refreshFoods up s)) with
             lastCacheUpdate := done })

/-! ## Responses -/

/-- The JSON text `json.NewEncoder(w).Encode(v)` is asked to write for a slice
`v`: `null` for a nil slice, an array otherwise.  Whether the encoder does
write it is `Encoded.supported`. -/
inductive Encoded (α : Type) where
  | null : Encoded α
  | array (items : List α) : Encoded α
deriving DecidableEq

/-- The JSON text asked for a slice value; `none` is the nil slice. -/
def Encode {α : Type} : Option (List α) → Encoded α
  | none => .null
  | some items => .array items

/-- What a handler hands to the response writer: a message to `http.Error`,
bytes to `w.Write`, or a value to `json.NewEncoder(w).Encode`. -/
inductive Payload where
  | text (msg : String) : Payload
  | raw (data : Bytes) : Payload
  | users (v : Encoded User) : Payload
  | restaurants (v : Encoded Restaurant) : Payload
  | foods (v : Encoded Food) : Payload
  | orders (v : Encoded Order) : Payload
  | order (o : Order) : Payload

/-- The status code of a response and what the handler handed to the response
writer as its body; what the client receives of it is `Response.written`. -/
structure Response where
  status : Nat
  body : Payload

/-- Whether a `float64` is finite (its exponent field is not all ones).  The
JSON encoder rejects NaN and the infinities with an `UnsupportedValueError`. -/
def Float64.finite (x : Float64) : Bool := (x.bits / 2 ^ 52) % 2048 != 2047

/-- Whether the encoder accepts a `Food`: its one `float64` is finite. -/
def Food.supported (food : Food) : Bool := food.Price.finite

/-- Whether the encoder accepts a `Restaurant`. -/
def Restaurant.supported (r : Restaurant) : Bool := r.Rating.finite && r.DeliveryFee.finite

/-- Whether the encoder accepts an `Order`. -/
def Order.supported (o : Order) : Bool := o.Total.finite && o.Items.all Food.supported

/-- Whether the encoder accepts a slice, given the test for its elements. -/
def Encoded.supported {α : Type} (ok : α → Bool) : Encoded α → Bool
  | .null => true
  | .array items => items.all ok

/-- Whether the body can be written.  A `User` has no `float64` field, so the
encoder accepts every slice of users. -/
def Payload.supported : Payload → Bool
  | .text _ => true
  | .raw _ => true
  | .users _ => true
  | .restaurants v => v.supported Restaurant.supported
  | .foods v => v.supported Food.supported
  | .orders v => v.supported Order.supported
  | .order o => o.supported

/-- The body the client receives.  `Encode` marshals the whole value before it
writes anything, and every handler drops the error it returns (main.go 172,
205, 238, 300, 333, 338, 362): when the value is not supported nothing is
written and the response is the status with an empty body (`none`). -/
def Response.written (r : Response) : Option Payload :=
  if r.body.supported then some r.body else none

/-! ## Resource query layer (main.go 167-334) -/

/-- Go `getUsersHandler`. -/
def getUsersHandler (up : Upstream) (now done : Int) (s : State) : Response × State :=
  if (updateCacheIfNeeded up now done s).2.cachedUsers.len > 0 then
    (⟨200, .users (Encode (some (updateCacheIfNeeded up now done s).2.cachedUsers.elems))⟩,
     (updateCacheIfNeeded up now done s).2)
  else
    match (makeRequest up "/users" (updateCacheIfNeeded up now done s).2).1 with
    | .error err => (⟨500, .text err⟩, (makeRequest up "/users" (updateCacheIfNeeded up now done s).2).2)
    | .ok data => (⟨200, .raw data⟩, (makeRequest up "/users" (updateCacheIfNeeded up now done s).2).2)

/-- Go `getRestaurantsHandler`. -/
def getRestaurantsHandler (up : Upstream) (now done : Int) (s : State) : Response × State :=
  if (updateCacheIfNeeded up now done s).2.cachedRestaurants.len > 0 then
    (⟨200, .restaurants
        (Encode (some (updateCacheIfNeeded up now done s).2.cachedRestaurants.elems))⟩,
     (updateCacheIfNeeded up now done s).2)
  else
    match (makeRequest up "/restaurants" (updateCacheIfNeeded up now done s).2).1 with
    | .error err =>
      (⟨500, .text err⟩, (makeRequest up "/restaurants" (updateCacheIfNeeded up now done s).2).2)
    | .ok data =>
      (⟨200, .raw data⟩, (makeRequest up "/restaurants" (updateCacheIfNeeded up now done s).2).2)

/-- Go `getFoodsHandler`. -/
def getFoodsHandler (up : Upstream) (now done : Int) (s : State) : Response × State :=
  if (updateCacheIfNeeded up now done s).2.cachedFoods.len > 0 then
    (⟨200, .foods (Encode (some (updateCacheIfNeeded up now done s).2.cachedFoods.elems))⟩,
     (updateCacheIfNeeded up now done s).2)
  else
    match (makeRequest up "/foods" (updateCacheIfNeeded up now done s).2).1 with
    | .error err => (⟨500, .text err⟩, (makeRequest up "/foods" (updateCacheIfNeeded up now done s).2).2)
    | .ok data => (⟨200, .raw data⟩, (makeRequest up "/foods" (updateCacheIfNeeded up now done s).2).2)

/-- Go `getUserByIDHandler`; `id` is the path variable, appended to the
endpoint as it came. -/
def getUserByIDHandler (up : Upstream) (id : String) (s : State) : Response × State :=
  match (makeRequest up ("/users/" ++ id) s).1 with
  | .error err => (⟨500, .text err⟩, (makeRequest up ("/users/" ++ id) s).2)
  | .ok data => (⟨200, .raw data⟩, (makeRequest up ("/users/" ++ id) s).2)

/-- Go `getRestaurantByIDHandler`. -/
def getRestaurantByIDHandler (up : Upstream) (id : String) (s : State) : Response × State :=
  match (makeRequest up ("/restaurants/" ++ id) s).1 with
  | .error err => (⟨500, .text err⟩, (makeRequest up ("/restaurants/" ++ id) s).2)
  | .ok data => (⟨200, .raw data⟩, (makeRequest up ("/restaurants/" ++ id) s).2)

/-- Go `getFoodByIDHandler`. -/
def getFoodByIDHandler (up : Upstream) (id : String) (s : State) : Response × State :=
  match (makeRequest up ("/foods/" ++ id) s).1 with
  | .error err => (⟨500, .text err⟩, (makeRequest up ("/foods/" ++ id) s).2)
  | .ok data => (⟨200, .raw data⟩, (makeRequest up ("/foods/" ++ id) s).2)

/-- Go `append(filteredFoods, food)`; `none` is the nil slice that
`var filteredFoods []Food` declares. -/
def appendFood : Option (List Food) → Food → Option (List Food)
  | none, food => some [food]
  | some fs, food => some (fs ++ [food])

/-- The loop of main.go 292-297. -/
def filterByRestaurant (restaurantID : Int) (foods : List Food) : Option (List Food) :=
  foods.foldl
    (fun filteredFoods food =>
      if food.RestaurantID = restaurantID then appendFood filteredFoods food else filteredFoods)
    none

/-- The loop of main.go 325-330. -/
def filterByCategory (category : String) (foods : List Food) : Option (List Food) :=
  foods.foldl
    (fun filteredFoods food =>
      if food.Category = category then appendFood filteredFoods food else filteredFoods)
    none

/-- Go `getFoodsByRestaurantHandler`; `restaurantId` is the path variable.  The
foods are the cache after `updateCacheIfNeeded` when it is non-empty, else a
direct request unmarshalled into a fresh nil slice. -/
def getFoodsByRestaurantHandler (up : Upstream) (now done : Int) (restaurantId : String)
    (s : State) : Response × State :=
  match Atoi restaurantId with
  | none => (⟨400, .text "ID do restaurante inválido"⟩, s)
  | some restaurantID =>
    if (updateCacheIfNeeded up now done s).2.cachedFoods.len > 0 then
      (⟨200, .foods (Encode (filterByRestaurant restaurantID
          (updateCacheIfNeeded up now done s).2.cachedFoods.elems))⟩,
       (updateCacheIfNeeded up now done s).2)
    else
      match (makeRequest up "/foods" (updateCacheIfNeeded up now done s).2).1 with
      | .error err =>
        (⟨500, .text err⟩, (makeRequest up "/foods" (updateCacheIfNeeded up now done s).2).2)
      | .ok data =>
        if (unmarshalFoods Slice.nil data).2 = false then
          (⟨500, .text "Erro ao processar dados"⟩,
           (makeRequest up "/foods" (updateCacheIfNeeded up now done s).2).2)
        else
          (⟨200, .foods (Encode (filterByRestaurant restaurantID
              (unmarshalFoods Slice.nil data).1.elems))⟩,
           (makeRequest up "/foods" (updateCacheIfNeeded up now done s).2).2)

/-- Go `getFoodsByCategoryHandler`; `category` is the path variable. -/
def getFoodsByCategoryHandler (up : Upstream) (now done : Int) (category : String)
    (s : State) : Response × State :=
  if (updateCacheIfNeeded up now done s).2.cachedFoods.len > 0 then
    (⟨200, .foods (Encode (filterByCategory category
        (updateCacheIfNeeded up now done s).2.cachedFoods.elems))⟩,
     (updateCacheIfNeeded up now done s).2)
  else
    match (makeRequest up "/foods" (updateCacheIfNeeded up now done s).2).1 with
    | .error err =>
      (⟨500, .text err⟩, (makeRequest up "/foods" (updateCacheIfNeeded up now done s).2).2)
    | .ok data =>
      if (unmarshalFoods Slice.nil data).2 = false then
        (⟨500, .text "Erro ao processar dados"⟩,
         (makeRequest up "/foods" (updateCacheIfNeeded up now done s).2).2)
      else
        (⟨200, .foods (Encode (filterByCategory category
            (unmarshalFoods Slice.nil data).1.elems))⟩,
         (makeRequest up "/foods" (updateCacheIfNeeded up now done s).2).2)

/-! ## Order handlers (main.go 336-368) -/

/-- Go `getOrdersHandler`: the store as it stands (`mockOrders` is never nil). -/
def getOrdersHandler (s : State) : Response × State :=
  (⟨200, .orders (Encode (some s.mockOrders))⟩, s)

/-- Go `updateOrderStatusHandler`.  `id` is the path variable and `body` the
first JSON value on the request body (`none` when there is none to read). -/
def updateOrderStatusHandler (id : String) (body : Option JValue) (s : State) :
    Response × State :=
  match Atoi id with
  | none => (⟨400, .text "ID do pedido inválido"⟩, s)
  | some orderID =>
    match body with
    | none => (⟨400, .text "Dados inválidos"⟩, s)
    | some v =>
      if (decodeStruct statusSetField "" v).2 = false then (⟨400, .text "Dados inválidos"⟩, s)
      else
        match (updateStatus orderID (decodeStruct statusSetField "" v).1 s.mockOrders).1 with
        | some order =>
          (⟨200, .order order⟩,
           { s with mockOrders :=
               (updateStatus orderID (decodeStruct statusSetField "" v).1 s.mockOrders).2 })
        | none => (⟨404, .text "Pedido não encontrado"⟩, s)

/-! ## Routes with a numeric path variable (main.go 402-413) -/

/-- Whether a path segment matches the route pattern `[0-9]+`. -/
def matchesDigits (segment : String) : Bool :=
  match segment.toList with
  | [] => false
  | c :: cs => (c :: cs).all (fun d => (digitVal d).isSome)

/-- A request whose path matches no route: the router answers 404 itself. -/
def notFound (s : State) : Response × State := (⟨404, .text "404 page not found"⟩, s)

/-- Route `GET /api/users/{id:[0-9]+}`. -/
def routeUserByID (up : Upstream) (segment : String) (s : State) : Response × State :=
  if matchesDigits segment then getUserByIDHandler up segment s else notFound s

/-- Route `GET /api/restaurants/{id:[0-9]+}`. -/
def routeRestaurantByID (up : Upstream) (segment : String) (s : State) : Response × State :=
  if matchesDigits segment then getRestaurantByIDHandler up segment s else notFound s

/-- Route `GET /api/foods/{id:[0-9]+}`. -/
def routeFoodByID (up : Upstream) (segment : String) (s : State) : Response × State :=
  if matchesDigits segment then getFoodByIDHandler up segment s else notFound s

/-- Route `GET /api/foods/restaurant/{restaurantId:[0-9]+}`. -/
def routeFoodsByRestaurant (up : Upstream) (now done : Int) (segment : String) (s : State) :
    Response × State :=
  if matchesDigits segment then getFoodsByRestaurantHandler up now done segment s else notFound s

/-- A fixed rendering of the start-up clock, used for the seeded examples. -/
def sampleCreatedAt (m : Int) : String :=
  if m = -30 then "11:30" else if m = -15 then "11:45" else "11:00"

/-! ## Sample data for the concrete checks -/

/-- A cached food of restaurant 1. -/
def pizza : Food :=
  { ID := 1, Name := "Pizza", Description := "Margherita", Image := "pizza.png",
    Price := ⟨0x403de66666666666⟩, Category := "Pizzas", Tags := Slice.ofList ["queijo"],
    RestaurantID := 1, Available := true }

/-- A cached user. -/
def ana : User :=
  { ID := 2, Name := "Ana Souza", Email := "ana@example.com", Phone := "5551",
    Address := "Rua A", Avatar := "ana.png" }

/-- An upstream that is down: every request fails in transport. -/
def downUpstream : Upstream := fun _ _ => .failed "timeout"

/-- An upstream that answers every request with status 200 and a body that is
not JSON. -/
def htmlUpstream : Upstream := fun _ _ => .response 200 (.ok (.malformed "<html>"))

/-- An upstream that answers every request with status 200 and the JSON text
`[]`. -/
def emptyUpstream : Upstream := fun _ _ => .response 200 (.ok (.json (.arr [])))

/-- The start state with `pizza` already in the foods cache (and the zero
timestamp, so the cache counts as stale at any realistic clock value). -/
def pizzaState : State :=
  { initialState sampleCreatedAt with cachedFoods := Slice.ofList [pizza] }

/-- `pizzaState` with the cache stamped at clock value 0. -/
def freshPizzaState : State := { pizzaState with lastCacheUpdate := 0 }

/-- The start state with `ana` in the users cache, stamped at clock value 0; the
foods cache is empty. -/
def anaState : State :=
  { initialState sampleCreatedAt with cachedUsers := Slice.ofList [ana], lastCacheUpdate := 0 }

/-- The JSON text `[{"id": 2, "name": "Sushi", "restaurant_id": 2}]`. -/
def sushiBody : Bytes :=
  .json (.arr [.obj [("id", .num "2" (some ⟨0x4000000000000000⟩)), ("name", .str "Sushi"),
                     ("restaurant_id", .num "2" (some ⟨0x4000000000000000⟩))]])

/-- What `sushiBody` denotes on its own: the one food it lists, every field it
does not mention at its zero value. -/
def sushi : Food := { Food.zero with ID := 2, Name := "Sushi", RestaurantID := 2 }

/-- The JSON text `[{"id": 7, "name": "Sushi"}, {"id": "oops"}]`, whose second
element has a string where `Food.ID` needs a number. -/
def brokenBody : Bytes :=
  .json (.arr [.obj [("id", .num "7" (some ⟨0x401c000000000000⟩)), ("name", .str "Sushi")],
               .obj [("id", .str "oops")]])

/-- An upstream that answers `/foods` with `sushiBody` and fails otherwise. -/
def sushiUpstream : Upstream :=
  fun _ endpoint => if endpoint = "/foods" then .response 200 (.ok sushiBody) else .failed "timeout"

/-- An upstream that answers `/foods` with `brokenBody` and fails otherwise. -/
def brokenUpstream : Upstream :=
  fun _ endpoint => if endpoint = "/foods" then .response 200 (.ok brokenBody) else .failed "timeout"

/-! ## Order store: lemmas -/

/-- The scan stops at the first match: with no matching order before `o`, the
call returns `o` with the new status and writes it back in place. -/
theorem updateStatus_append (orderID : Int) (status : String) (pre : List Order) (o : Order)
    (post : List Order) (hpre : ∀ x ∈ pre, x.ID ≠ orderID) (ho : o.ID = orderID) :
    updateStatus orderID status (pre ++ o :: post) =
      (some { o with Status := status }, pre ++ { o with Status := status } :: post) := by
  induction pre with
  | nil => simp [updateStatus, ho]
  | cons x xs ih =>
    have hx : x.ID ≠ orderID := hpre x (List.mem_cons_self x xs)
    have hxs : ∀ y ∈ xs, y.ID ≠ orderID := fun y hy => hpre y (List.mem_cons_of_mem x hy)
    simp [updateStatus, hx, ih hxs]

/-- A store holding a matching order splits at its first matching order. -/
theorem exists_first_match (orderID : Int) (orders : List Order)
    (h : ∃ o ∈ orders, o.ID = orderID) :
    ∃ pre o post, orders = pre ++ o :: post ∧ (∀ x ∈ pre, x.ID ≠ orderID) ∧ o.ID = orderID := by
  induction orders with
  | nil => obtain ⟨o, ho, _⟩ := h; cases ho
  | cons x xs ih =>
    by_cases hx : x.ID = orderID
    · exact ⟨[], x, xs, rfl, by simp, hx⟩
    · obtain ⟨o, ho, hid⟩ := h
      have hmem : o ∈ xs := by
        rcases List.mem_cons.mp ho with heq | hin
        · exact absurd (heq ▸ hid) hx
        · exact hin
      obtain ⟨pre, o', post, hsplit, hpre, hid'⟩ := ih ⟨o, hmem, hid⟩
      refine ⟨x :: pre, o', post, by simp [hsplit], ?_, hid'⟩
      intro y hy
      rcases List.mem_cons.mp hy with heq | hin
      · exact heq ▸ hx
      · exact hpre y hin

/-- With no matching order the scan runs off the end and assigns nothing. -/
theorem updateStatus_no_match (orderID : Int) (status : String) (orders : List Order)
    (h : ∀ o ∈ orders, o.ID ≠ orderID) :
    updateStatus orderID status orders = (none, orders) := by
  induction orders with
  | nil => rfl
  | cons x xs ih =>
    have hx : x.ID ≠ orderID := h x (List.mem_cons_self x xs)
    have hxs : ∀ y ∈ xs, y.ID ≠ orderID := fun y hy => h y (List.mem_cons_of_mem x hy)
    simp [updateStatus, hx, ih hxs]

/-- The request body `{"status": status}` decodes to `status`, whatever the
string. -/
theorem decode_status_body (status : String) :
    decodeStruct statusSetField "" (.obj [("status", .str status)]) = (status, true) := by
  have hk : keyIs "status" "status" = true := by decide
  simp [decodeStruct, decodeMembers, statusSetField, hk, storeString]

/-! ## Order store: claims -/

/-- C1. If some order of the store has the id, `updateStatus` succeeds and
returns the first order in stored sequence whose id matches, carrying the new
status and every other field as that order held it; the handler, given that id
and the body `{"status": status}` for any string `status` (the empty one
included), answers 200 with that order. -/
theorem updateStatus_returns_first_match (orders : List Order) (orderID : Int) (status : String)
    (h : ∃ o ∈ orders, o.ID = orderID) :
    ∃ pre o post r, orders = pre ++ o :: post ∧ (∀ x ∈ pre, x.ID ≠ orderID) ∧ o.ID = orderID ∧
      (updateStatus orderID status orders).1 = some r ∧
      r.Status = status ∧ r.ID = o.ID ∧ r.UserID = o.UserID ∧ r.Items = o.Items ∧
      r.Total = o.Total ∧ r.CreatedAt = o.CreatedAt ∧ r.CustomerName = o.CustomerName ∧
      ∀ (s : State) (id : String), s.mockOrders = orders → Atoi id = some orderID →
        (updateOrderStatusHandler id (some (.obj [("status", .str status)])) s).1.status = 200 ∧
        (updateOrderStatusHandler id (some (.obj [("status", .str status)])) s).1.body
          = .order r := by
  obtain ⟨pre, o, post, hsplit, hpre, hid⟩ := exists_first_match orderID orders h
  have hrun := updateStatus_append orderID status pre o post hpre hid
  refine ⟨pre, o, post, { o with Status := status }, hsplit, hpre, hid, ?_, rfl, rfl, rfl, rfl,
    rfl, rfl, rfl, ?_⟩
  · rw [hsplit, hrun]
  · intro s id hs hatoi
    simp [updateOrderStatusHandler, hatoi, decode_status_body, hs, hsplit, hrun]

/-- Witness of C1 on the seeded store: order 1 set to "Entregue". -/
theorem updateStatus_returns_first_match_witness :
    ∃ pre o post r, mockOrders sampleCreatedAt = pre ++ o :: post ∧ (∀ x ∈ pre, x.ID ≠ 1) ∧
      o.ID = 1 ∧
      (updateStatus 1 "Entregue" (mockOrders sampleCreatedAt)).1 = some r ∧
      r.Status = "Entregue" ∧ r.ID = o.ID ∧ r.UserID = o.UserID ∧ r.Items = o.Items ∧
      r.Total = o.Total ∧ r.CreatedAt = o.CreatedAt ∧ r.CustomerName = o.CustomerName ∧
      ∀ (s : State) (id : String), s.mockOrders = mockOrders sampleCreatedAt →
        Atoi id = some 1 →
        (updateOrderStatusHandler id (some (.obj [("status", .str "Entregue")])) s).1.status
          = 200 ∧
        (updateOrderStatusHandler id (some (.obj [("status", .str "Entregue")])) s).1.body
          = .order r :=
  updateStatus_returns_first_match (mockOrders sampleCreatedAt) 1 "Entregue"
    ⟨{ ID := 1, UserID := 1, Items := [], Total := ⟨0x4046f33333333333⟩,
       Status := "Em preparo", CreatedAt := sampleCreatedAt (-30),
       CustomerName := "João Silva" }, by simp [mockOrders], rfl⟩

/-- C2. After a successful `updateStatus` the store has the same length and the
same orders at the same positions, except that the first matching order now
has the new status: every other position (a later order with the same id
included) is unchanged, `getOrdersHandler` returns exactly this sequence, and
the handler stores this sequence and changes nothing else of the state. -/
theorem updateStatus_frame (orders : List Order) (orderID : Int) (status : String) (r : Order)
    (h : (updateStatus orderID status orders).1 = some r) :
    ∃ pre o post, orders = pre ++ o :: post ∧ (∀ x ∈ pre, x.ID ≠ orderID) ∧ o.ID = orderID ∧
      (updateStatus orderID status orders).2 = pre ++ { o with Status := status } :: post ∧
      (updateStatus orderID status orders).2.length = orders.length ∧
      (∀ i, i ≠ pre.length → (updateStatus orderID status orders).2[i]? = orders[i]?) ∧
      (∀ s : State, s.mockOrders = (updateStatus orderID status orders).2 →
        (getOrdersHandler s).1.body
          = .orders (.array (pre ++ { o with Status := status } :: post)) ∧
        (getOrdersHandler s).2 = s) ∧
      ∀ (s : State) (id : String), s.mockOrders = orders → Atoi id = some orderID →
        (updateOrderStatusHandler id (some (.obj [("status", .str status)])) s).2
          = { s with mockOrders := pre ++ { o with Status := status } :: post } := by
  have hex : ∃ o ∈ orders, o.ID = orderID := by
    by_contra hno
    have hall : ∀ o ∈ orders, o.ID ≠ orderID := fun o ho hid => hno ⟨o, ho, hid⟩
    rw [updateStatus_no_match orderID status orders hall] at h
    cases h
  obtain ⟨pre, o, post, hsplit, hpre, hid⟩ := exists_first_match orderID orders hex
  have hrun := updateStatus_append orderID status pre o post hpre hid
  refine ⟨pre, o, post, hsplit, hpre, hid, ?_, ?_, ?_, ?_, ?_⟩
  · rw [hsplit, hrun]
  · rw [hsplit, hrun]; simp
  · intro i hi
    rw [hsplit, hrun]
    rcases Nat.lt_or_gt_of_ne hi with hlt | hgt
    · simp [List.getElem?_append_left hlt]
    · have hle : pre.length ≤ i := Nat.le_of_lt hgt
      rw [List.getElem?_append_right hle, List.getElem?_append_right hle]
      obtain ⟨k, hk⟩ : ∃ k, i - pre.length = k + 1 := ⟨i - pre.length - 1, by omega⟩
      rw [hk]; simp
  · intro s hs
    simp [getOrdersHandler, Encode, hs, hsplit, hrun]
  · intro s id hs hatoi
    simp [updateOrderStatusHandler, hatoi, decode_status_body, hs, hsplit, hrun]

/-- Witness of C2 on the seeded store: `updateStatus(2, "Entregue")`. -/
theorem updateStatus_frame_witness :
    ∃ pre o post, mockOrders sampleCreatedAt = pre ++ o :: post ∧ (∀ x ∈ pre, x.ID ≠ 2) ∧
      o.ID = 2 ∧
      (updateStatus 2 "Entregue" (mockOrders sampleCreatedAt)).2
        = pre ++ { o with Status := "Entregue" } :: post ∧
      (updateStatus 2 "Entregue" (mockOrders sampleCreatedAt)).2.length
        = (mockOrders sampleCreatedAt).length ∧
      (∀ i, i ≠ pre.length →
        (updateStatus 2 "Entregue" (mockOrders sampleCreatedAt)).2[i]?
          = (mockOrders sampleCreatedAt)[i]?) ∧
      (∀ s : State, s.mockOrders = (updateStatus 2 "Entregue" (mockOrders sampleCreatedAt)).2 →
        (getOrdersHandler s).1.body
          = .orders (.array (pre ++ { o with Status := "Entregue" } :: post)) ∧
        (getOrdersHandler s).2 = s) ∧
      ∀ (s : State) (id : String), s.mockOrders = mockOrders sampleCreatedAt →
        Atoi id = some 2 →
        (updateOrderStatusHandler id (some (.obj [("status", .str "Entregue")])) s).2
          = { s with mockOrders := pre ++ { o with Status := "Entregue" } :: post } :=
  updateStatus_frame (mockOrders sampleCreatedAt) 2 "Entregue"
    { ID := 2, UserID := 2, Items := [], Total := ⟨0x4041e66666666666⟩,
      Status := "Entregue", CreatedAt := sampleCreatedAt (-15), CustomerName := "Ana Souza" }
    (by simp [mockOrders, updateStatus])

/-- C3. `updateStatus` signals NotFound exactly when no order of the store has
the id, and then the store is left as it was; the handler then answers 404 and
leaves the whole state as it was. -/
theorem updateStatus_notFound_iff (orders : List Order) (orderID : Int) (status : String) :
    ((updateStatus orderID status orders).1 = none ↔ ∀ o ∈ orders, o.ID ≠ orderID) ∧
    ((updateStatus orderID status orders).1 = none →
      (updateStatus orderID status orders).2 = orders) ∧
    ∀ (s : State) (id : String), s.mockOrders = orders → Atoi id = some orderID →
      (∀ o ∈ orders, o.ID ≠ orderID) →
      (updateOrderStatusHandler id (some (.obj [("status", .str status)])) s).1.status = 404 ∧
      (updateOrderStatusHandler id (some (.obj [("status", .str status)])) s).2 = s := by
  have hiff : (updateStatus orderID status orders).1 = none ↔ ∀ o ∈ orders, o.ID ≠ orderID := by
    constructor
    · intro hnone o ho hid
      obtain ⟨pre, o', post, hsplit, hpre, hid'⟩ := exists_first_match orderID orders ⟨o, ho, hid⟩
      rw [hsplit, updateStatus_append orderID status pre o' post hpre hid'] at hnone
      cases hnone
    · intro hall
      rw [updateStatus_no_match orderID status orders hall]
  refine ⟨hiff, ?_, ?_⟩
  · intro hnone
    rw [updateStatus_no_match orderID status orders (hiff.mp hnone)]
  · intro s id hs hatoi hall
    simp [updateOrderStatusHandler, hatoi, decode_status_body, hs,
      updateStatus_no_match orderID status orders hall]

/-- Witness of C3 on the seeded store: `updateStatus(999, "X")` signals NotFound
and the store, hence what `getOrdersHandler` returns, is what it was. -/
theorem updateStatus_notFound_witness :
    (updateStatus 999 "X" (mockOrders sampleCreatedAt)).1 = none ∧
    (updateStatus 999 "X" (mockOrders sampleCreatedAt)).2 = mockOrders sampleCreatedAt :=
  have hnone : (updateStatus 999 "X" (mockOrders sampleCreatedAt)).1 = none :=
    (updateStatus_notFound_iff (mockOrders sampleCreatedAt) 999 "X").1.mpr
      (by simp [mockOrders])
  ⟨hnone, (updateStatus_notFound_iff (mockOrders sampleCreatedAt) 999 "X").2.1 hnone⟩

/-! ## Cache refresh policy: lemmas -/

/-- Saturation of `time.Since` does not affect the comparison with five
minutes. -/
theorem Since_lt_cacheDuration (now t : Int) :
    Since now t < cacheDuration ↔ now - t < cacheDuration := by
  have h63 : (2 : Int) ^ 63 = 9223372036854775808 := by norm_num
  unfold Since cacheDuration
  simp only [h63]
  split_ifs <;> constructor <;> intro h <;> omega

/-- The freshness test of `updateCacheIfNeeded`, in the words of the
specification. -/
theorem fresh_iff (now : Int) (s : State) :
    (Since now s.lastCacheUpdate < cacheDuration ∧ s.cachedFoods.len > 0) ↔
      (now - s.lastCacheUpdate < cacheDuration ∧ 0 < s.cachedFoods.len) := by
  rw [Since_lt_cacheDuration]

/-- A fresh cache: `updateCacheIfNeeded` returns at once. -/
theorem updateCacheIfNeeded_of_fresh (up : Upstream) (now done : Int) (s : State)
    (hage : now - s.lastCacheUpdate < cacheDuration) (hfoods : 0 < s.cachedFoods.len) :
    updateCacheIfNeeded up now done s = (none, s) := by
  have h : Since now s.lastCacheUpdate < cacheDuration ∧ s.cachedFoods.len > 0 :=
    (fresh_iff now s).mpr ⟨hage, hfoods⟩
  simp [updateCacheIfNeeded, h]

/-- A stale cache: `updateCacheIfNeeded` runs the three steps and stamps the
cycle. -/
theorem updateCacheIfNeeded_of_stale (up : Upstream) (now done : Int) (s : State)
    (hstale : cacheDuration ≤ now - s.lastCacheUpdate ∨ s.cachedFoods.len = 0) :
    updateCacheIfNeeded up now done s =
      (none, { refreshUsers up (refreshRestaurants up (refreshFoods up s)) with
               lastCacheUpdate := done }) := by
  have h : ¬ (Since now s.lastCacheUpdate < cacheDuration ∧ s.cachedFoods.len > 0) := by
    rw [fresh_iff]
    rintro ⟨h1, h2⟩
    rcases hstale with h3 | h3
    · exact absurd h1 (not_lt.mpr h3)
    · omega
  simp [updateCacheIfNeeded, h]

/-- The `/foods` step: one request, and only `cachedFoods` can change. -/
theorem refreshFoods_frame (up : Upstream) (s : State) :
    (refreshFoods up s).requests = s.requests ++ ["/foods"] ∧
    (refreshFoods up s).cachedRestaurants = s.cachedRestaurants ∧
    (refreshFoods up s).cachedUsers = s.cachedUsers ∧
    (refreshFoods up s).lastCacheUpdate = s.lastCacheUpdate ∧
    (refreshFoods up s).mockOrders = s.mockOrders := by
  unfold refreshFoods makeRequest
  cases fetch up s.requests "/foods" <;> simp

/-- The `/restaurants` step: one request, and only `cachedRestaurants` can
change. -/
theorem refreshRestaurants_frame (up : Upstream) (s : State) :
    (refreshRestaurants up s).requests = s.requests ++ ["/restaurants"] ∧
    (refreshRestaurants up s).cachedFoods = s.cachedFoods ∧
    (refreshRestaurants up s).cachedUsers = s.cachedUsers ∧
    (refreshRestaurants up s).lastCacheUpdate = s.lastCacheUpdate ∧
    (refreshRestaurants up s).mockOrders = s.mockOrders := by
  unfold refreshRestaurants makeRequest
  cases fetch up s.requests "/restaurants" <;> simp

/-- The `/users` step: one request, and only `cachedUsers` can change. -/
theorem refreshUsers_frame (up : Upstream) (s : State) :
    (refreshUsers up s).requests = s.requests ++ ["/users"] ∧
    (refreshUsers up s).cachedFoods = s.cachedFoods ∧
    (refreshUsers up s).cachedRestaurants = s.cachedRestaurants ∧
    (refreshUsers up s).lastCacheUpdate = s.lastCacheUpdate ∧
    (refreshUsers up s).mockOrders = s.mockOrders := by
  unfold refreshUsers makeRequest
  cases fetch up s.requests "/users" <;> simp

/-- What the `/foods` step leaves in `cachedFoods`. -/
theorem refreshFoods_cachedFoods (up : Upstream) (s : State) :
    (refreshFoods up s).cachedFoods =
      match fetch up s.requests "/foods" with
      | .ok data => (unmarshalFoods s.cachedFoods data).1
      | .error _ => s.cachedFoods := by
  unfold refreshFoods makeRequest
  cases fetch up s.requests "/foods" <;> simp

/-- What the `/restaurants` step leaves in `cachedRestaurants`. -/
theorem refreshRestaurants_cachedRestaurants (up : Upstream) (s : State) :
    (refreshRestaurants up s).cachedRestaurants =
      match fetch up s.requests "/restaurants" with
      | .ok data => (unmarshalRestaurants s.cachedRestaurants data).1
      | .error _ => s.cachedRestaurants := by
  unfold refreshRestaurants makeRequest
  cases fetch up s.requests "/restaurants" <;> simp

/-- What the `/users` step leaves in `cachedUsers`. -/
theorem refreshUsers_cachedUsers (up : Upstream) (s : State) :
    (refreshUsers up s).cachedUsers =
      match fetch up s.requests "/users" with
      | .ok data => (unmarshalUsers s.cachedUsers data).1
      | .error _ => s.cachedUsers := by
  unfold refreshUsers makeRequest
  cases fetch up s.requests "/users" <;> simp

/-- The state a refresh cycle ends in, field by field. -/
theorem cycle_fields (up : Upstream) (done : Int) (s : State) :
    let s' : State := { refreshUsers up (refreshRestaurants up (refreshFoods up s)) with
                        lastCacheUpdate := done }
    s'.requests = s.requests ++ ["/foods", "/restaurants", "/users"] ∧
    s'.lastCacheUpdate = done ∧
    s'.mockOrders = s.mockOrders ∧
    s'.cachedFoods = (refreshFoods up s).cachedFoods ∧
    s'.cachedRestaurants = (refreshRestaurants up (refreshFoods up s)).cachedRestaurants ∧
    s'.cachedUsers = (refreshUsers up (refreshRestaurants up (refreshFoods up s))).cachedUsers := by
  have hf := refreshFoods_frame up s
  have hr := refreshRestaurants_frame up (refreshFoods up s)
  have hu := refreshUsers_frame up (refreshRestaurants up (refreshFoods up s))
  refine ⟨?_, rfl, ?_, ?_, ?_, rfl⟩
  · show (refreshUsers up (refreshRestaurants up (refreshFoods up s))).requests = _
    rw [hu.1, hr.1, hf.1]; simp
  · show (refreshUsers up (refreshRestaurants up (refreshFoods up s))).mockOrders = _
    rw [hu.2.2.2.2, hr.2.2.2.2, hf.2.2.2.2]
  · show (refreshUsers up (refreshRestaurants up (refreshFoods up s))).cachedFoods = _
    rw [hu.2.1, hr.2.1]
  · show (refreshUsers up (refreshRestaurants up (refreshFoods up s))).cachedRestaurants = _
    rw [hu.2.2.1]

/-! ## Cache refresh policy: claims -/

/-- C4. If `now - lastCacheUpdate` is under five minutes and the foods cache is
non-empty, `updateCacheIfNeeded` issues no upstream request and leaves the
three collections and the timestamp as they were, whatever restaurants and
users hold.  Hence over two calls in succession, the first on such a fresh
cache, each endpoint is requested at most once, and not at all when the second
call is still inside the window. -/
theorem updateCacheIfNeeded_fresh_noop (up : Upstream) (now done : Int) (s : State)
    (hage : now - s.lastCacheUpdate < cacheDuration) (hfoods : 0 < s.cachedFoods.len) :
    updateCacheIfNeeded up now done s = (none, s) ∧
    ∀ now2 done2 : Int, ∃ added : List String,
      (updateCacheIfNeeded up now2 done2 (updateCacheIfNeeded up now done s).2).2.requests
        = s.requests ++ added ∧
      (∀ endpoint, added.count endpoint ≤ 1) ∧
      (now2 - s.lastCacheUpdate < cacheDuration → added = []) := by
  have h1 := updateCacheIfNeeded_of_fresh up now done s hage hfoods
  refine ⟨h1, ?_⟩
  intro now2 done2
  rw [h1]
  by_cases h2 : now2 - s.lastCacheUpdate < cacheDuration
  · refine ⟨[], ?_, by simp, fun _ => rfl⟩
    show (updateCacheIfNeeded up now2 done2 s).2.requests = _
    rw [updateCacheIfNeeded_of_fresh up now2 done2 s h2 hfoods]
    simp
  · refine ⟨["/foods", "/restaurants", "/users"], ?_, ?_, fun h => absurd h h2⟩
    · show (updateCacheIfNeeded up now2 done2 s).2.requests = _
      rw [updateCacheIfNeeded_of_stale up now2 done2 s (Or.inl (not_lt.mp h2))]
      exact (cycle_fields up done2 s).1
    · intro endpoint
      have hnodup : (["/foods", "/restaurants", "/users"] : List String).Nodup := by decide
      exact List.nodup_iff_count_le_one.mp hnodup endpoint

/-- Witness of C4: `pizza` cached one minute ago, users and restaurants empty,
upstream down. -/
theorem updateCacheIfNeeded_fresh_noop_witness :
    updateCacheIfNeeded downUpstream 60000000000 60000000001
        { pizzaState with lastCacheUpdate := 0 }
      = (none, { pizzaState with lastCacheUpdate := 0 }) ∧
    ∀ now2 done2 : Int, ∃ added : List String,
      (updateCacheIfNeeded downUpstream now2 done2
          (updateCacheIfNeeded downUpstream 60000000000 60000000001
            { pizzaState with lastCacheUpdate := 0 }).2).2.requests
        = ({ pizzaState with lastCacheUpdate := 0 } : State).requests ++ added ∧
      (∀ endpoint, added.count endpoint ≤ 1) ∧
      (now2 - ({ pizzaState with lastCacheUpdate := 0 } : State).lastCacheUpdate < cacheDuration →
        added = []) :=
  updateCacheIfNeeded_fresh_noop downUpstream 60000000000 60000000001
    { pizzaState with lastCacheUpdate := 0 } (by decide) (by decide)

/-- Counterexample to C5 as stated: a stale cache holding `pizza`, and the same
cache empty, each run one cycle against an upstream whose `/foods` request
succeeds (status 200) with a body that is not JSON.  The fetch succeeded, yet
the foods collection is not replaced by anything the fetch returned: it is
what it was before the cycle, `pizza` in one run and nothing in the other. -/
theorem stale_cycle_successful_fetch_not_replaced :
    fetch htmlUpstream [] "/foods" = .ok (.malformed "<html>") ∧
    pizzaState.requests = [] ∧ (initialState sampleCreatedAt).requests = [] ∧
    cacheDuration ≤ 1000 - pizzaState.lastCacheUpdate ∧
    cacheDuration ≤ 1000 - (initialState sampleCreatedAt).lastCacheUpdate ∧
    (updateCacheIfNeeded htmlUpstream 1000 2000 pizzaState).2.cachedFoods.elems = [pizza] ∧
    (updateCacheIfNeeded htmlUpstream 1000 2000 (initialState sampleCreatedAt)).2.cachedFoods.elems
      = [] := by
  refine ⟨rfl, rfl, rfl, by decide, by decide, ?_, ?_⟩
  · rw [updateCacheIfNeeded_of_stale htmlUpstream 1000 2000 pizzaState (Or.inl (by decide))]
    rw [(cycle_fields htmlUpstream 2000 pizzaState).2.2.2.1, refreshFoods_cachedFoods]
    rfl
  · rw [updateCacheIfNeeded_of_stale htmlUpstream 1000 2000 (initialState sampleCreatedAt)
      (Or.inl (by decide))]
    rw [(cycle_fields htmlUpstream 2000 (initialState sampleCreatedAt)).2.2.2.1,
      refreshFoods_cachedFoods]
    rfl

/-- C5, amended.  If `now - lastCacheUpdate` is at least five minutes or the
foods cache is empty, `updateCacheIfNeeded` issues exactly one request for each
of `/foods`, `/restaurants` and `/users`, in that order, whatever the earlier
ones returned; it returns no error and sets `lastCacheUpdate` to the clock read
at the end of the cycle, also when every request failed.  A collection whose
request failed, or succeeded with a body that is not valid JSON, keeps the
value it had before the cycle; a collection that held nothing and whose body
decodes without error is exactly the decoded body. -/
theorem updateCacheIfNeeded_stale_cycle (up : Upstream) (now done : Int) (s : State)
    (hstale : cacheDuration ≤ now - s.lastCacheUpdate ∨ s.cachedFoods.len = 0) :
    (updateCacheIfNeeded up now done s).1 = none ∧
    (updateCacheIfNeeded up now done s).2.requests
      = s.requests ++ ["/foods", "/restaurants", "/users"] ∧
    (updateCacheIfNeeded up now done s).2.lastCacheUpdate = done ∧
    (updateCacheIfNeeded up now done s).2.mockOrders = s.mockOrders ∧
    ((∀ err, fetch up s.requests "/foods" = .error err →
        (updateCacheIfNeeded up now done s).2.cachedFoods = s.cachedFoods) ∧
     (∀ raw, fetch up s.requests "/foods" = .ok (.malformed raw) →
        (updateCacheIfNeeded up now done s).2.cachedFoods = s.cachedFoods) ∧
     (∀ data, fetch up s.requests "/foods" = .ok data → s.cachedFoods = Slice.nil →
        (unmarshalFoods Slice.nil data).2 = true →
        (updateCacheIfNeeded up now done s).2.cachedFoods = (unmarshalFoods Slice.nil data).1)) ∧
    ((∀ err, fetch up (s.requests ++ ["/foods"]) "/restaurants" = .error err →
        (updateCacheIfNeeded up now done s).2.cachedRestaurants = s.cachedRestaurants) ∧
     (∀ raw, fetch up (s.requests ++ ["/foods"]) "/restaurants" = .ok (.malformed raw) →
        (updateCacheIfNeeded up now done s).2.cachedRestaurants = s.cachedRestaurants) ∧
     (∀ data, fetch up (s.requests ++ ["/foods"]) "/restaurants" = .ok data →
        s.cachedRestaurants = Slice.nil → (unmarshalRestaurants Slice.nil data).2 = true →
        (updateCacheIfNeeded up now done s).2.cachedRestaurants
          = (unmarshalRestaurants Slice.nil data).1)) ∧
    ((∀ err, fetch up (s.requests ++ ["/foods", "/restaurants"]) "/users" = .error err →
        (updateCacheIfNeeded up now done s).2.cachedUsers = s.cachedUsers) ∧
     (∀ raw, fetch up (s.requests ++ ["/foods", "/restaurants"]) "/users"
          = .ok (.malformed raw) →
        (updateCacheIfNeeded up now done s).2.cachedUsers = s.cachedUsers) ∧
     (∀ data, fetch up (s.requests ++ ["/foods", "/restaurants"]) "/users" = .ok data →
        s.cachedUsers = Slice.nil → (unmarshalUsers Slice.nil data).2 = true →
        (updateCacheIfNeeded up now done s).2.cachedUsers = (unmarshalUsers Slice.nil data).1)) := by
  have hf := refreshFoods_frame up s
  have hr := refreshRestaurants_frame up (refreshFoods up s)
  have hc := cycle_fields up done s
  have hreq2 : (refreshRestaurants up (refreshFoods up s)).requests
      = s.requests ++ ["/foods", "/restaurants"] := by rw [hr.1, hf.1]; simp
  rw [updateCacheIfNeeded_of_stale up now done s hstale]
  refine ⟨rfl, hc.1, hc.2.1, hc.2.2.1, ⟨?_, ?_, ?_⟩, ⟨?_, ?_, ?_⟩, ⟨?_, ?_, ?_⟩⟩
  · intro err h
    rw [hc.2.2.2.1, refreshFoods_cachedFoods, h]
  · intro raw h
    rw [hc.2.2.2.1, refreshFoods_cachedFoods, h]; rfl
  · intro data h hnil _
    rw [hc.2.2.2.1, refreshFoods_cachedFoods, h, hnil]
  · intro err h
    rw [hc.2.2.2.2.1, refreshRestaurants_cachedRestaurants, hf.1, h, hf.2.1]
  · intro raw h
    rw [hc.2.2.2.2.1, refreshRestaurants_cachedRestaurants, hf.1, h, hf.2.1]; rfl
  · intro data h hnil _
    rw [hc.2.2.2.2.1, refreshRestaurants_cachedRestaurants, hf.1, h, hf.2.1, hnil]
  · intro err h
    rw [hc.2.2.2.2.2, refreshUsers_cachedUsers, hreq2, h, hr.2.2.1, hf.2.2.1]
  · intro raw h
    rw [hc.2.2.2.2.2, refreshUsers_cachedUsers, hreq2, h, hr.2.2.1, hf.2.2.1]; rfl
  · intro data h hnil _
    rw [hc.2.2.2.2.2, refreshUsers_cachedUsers, hreq2, h, hr.2.2.1, hf.2.2.1, hnil]

/-- Witness of C5, amended: the start state against an upstream that is down. -/
theorem updateCacheIfNeeded_stale_cycle_witness :
    (updateCacheIfNeeded downUpstream 0 1 (initialState sampleCreatedAt)).2.requests
      = ["/foods", "/restaurants", "/users"] ∧
    (updateCacheIfNeeded downUpstream 0 1 (initialState sampleCreatedAt)).2.lastCacheUpdate = 1 :=
  have h := updateCacheIfNeeded_stale_cycle downUpstream 0 1 (initialState sampleCreatedAt)
    (Or.inr rfl)
  ⟨h.2.1, h.2.2.1⟩

/-- Counterexample to C6 as stated: the start state (nothing cached) against an
upstream that is down.  The cycle at clock value 0 fails three times; the call
one second later is inside the five-minute window and still issues the three
requests again, because the foods cache is empty. -/
theorem outage_with_empty_foods_retries_at_once :
    fetch downUpstream [] "/foods" = .error "erro ao fazer requisição: timeout" ∧
    fetch downUpstream ["/foods"] "/restaurants" = .error "erro ao fazer requisição: timeout" ∧
    fetch downUpstream ["/foods", "/restaurants"] "/users"
      = .error "erro ao fazer requisição: timeout" ∧
    (updateCacheIfNeeded downUpstream 0 0 (initialState sampleCreatedAt)).2.lastCacheUpdate = 0 ∧
    (1000000000 : Int) - 0 < cacheDuration ∧
    (updateCacheIfNeeded downUpstream 1000000000 1000000000
        (updateCacheIfNeeded downUpstream 0 0 (initialState sampleCreatedAt)).2).2.requests
      = ["/foods", "/restaurants", "/users", "/foods", "/restaurants", "/users"] := by
  refine ⟨rfl, rfl, rfl, rfl, by decide, ?_⟩
  have h1 := updateCacheIfNeeded_of_stale downUpstream 0 0 (initialState sampleCreatedAt)
    (Or.inr rfl)
  have hfoods : ({ refreshUsers downUpstream (refreshRestaurants downUpstream
      (refreshFoods downUpstream (initialState sampleCreatedAt))) with
      lastCacheUpdate := 0 } : State).cachedFoods.len = 0 := by
    rw [(cycle_fields downUpstream 0 (initialState sampleCreatedAt)).2.2.2.1,
      refreshFoods_cachedFoods]
    rfl
  rw [h1, updateCacheIfNeeded_of_stale downUpstream 1000000000 1000000000 _ (Or.inr hfoods)]
  rw [(cycle_fields downUpstream 1000000000 _).1,
    (cycle_fields downUpstream 0 (initialState sampleCreatedAt)).1]
  rfl

/-- C6, amended.  After a cycle that ran at clock value `t0` and ended at `t`,
in which all three requests failed, the three collections are what they were
and `lastCacheUpdate` is `t`.  If the foods cache is non-empty, any call at a
clock value `t2` with `t2 - t` under five minutes issues no upstream request
and changes nothing; if it is empty, every later call runs the three requests
again, whatever the clock. -/
theorem outage_no_retry_within_window (up : Upstream) (t0 t : Int) (s : State)
    (hcycle : cacheDuration ≤ t0 - s.lastCacheUpdate ∨ s.cachedFoods.len = 0)
    (hfoodsFail : ∃ err, fetch up s.requests "/foods" = .error err)
    (hrestaurantsFail : ∃ err, fetch up (s.requests ++ ["/foods"]) "/restaurants" = .error err)
    (husersFail :
      ∃ err, fetch up (s.requests ++ ["/foods", "/restaurants"]) "/users" = .error err) :
    (updateCacheIfNeeded up t0 t s).2.cachedFoods = s.cachedFoods ∧
    (updateCacheIfNeeded up t0 t s).2.cachedRestaurants = s.cachedRestaurants ∧
    (updateCacheIfNeeded up t0 t s).2.cachedUsers = s.cachedUsers ∧
    (updateCacheIfNeeded up t0 t s).2.lastCacheUpdate = t ∧
    (updateCacheIfNeeded up t0 t s).2.requests
      = s.requests ++ ["/foods", "/restaurants", "/users"] ∧
    (0 < s.cachedFoods.len → ∀ t2 done2 : Int, t2 - t < cacheDuration →
      updateCacheIfNeeded up t2 done2 (updateCacheIfNeeded up t0 t s).2
        = (none, (updateCacheIfNeeded up t0 t s).2)) ∧
    (s.cachedFoods.len = 0 → ∀ t2 done2 : Int,
      (updateCacheIfNeeded up t2 done2 (updateCacheIfNeeded up t0 t s).2).2.requests
        = (updateCacheIfNeeded up t0 t s).2.requests ++ ["/foods", "/restaurants", "/users"]) := by
  have hf := refreshFoods_frame up s
  have hr := refreshRestaurants_frame up (refreshFoods up s)
  have hc := cycle_fields up t s
  have hreq2 : (refreshRestaurants up (refreshFoods up s)).requests
      = s.requests ++ ["/foods", "/restaurants"] := by rw [hr.1, hf.1]; simp
  obtain ⟨e1, h1⟩ := hfoodsFail
  obtain ⟨e2, h2⟩ := hrestaurantsFail
  obtain ⟨e3, h3⟩ := husersFail
  have hstale := updateCacheIfNeeded_of_stale up t0 t s hcycle
  have hfoodsEq : (updateCacheIfNeeded up t0 t s).2.cachedFoods = s.cachedFoods := by
    rw [hstale]; show _ = s.cachedFoods
    rw [hc.2.2.2.1, refreshFoods_cachedFoods, h1]
  have hstamp : (updateCacheIfNeeded up t0 t s).2.lastCacheUpdate = t := by
    rw [hstale]
  refine ⟨hfoodsEq, ?_, ?_, hstamp, ?_, ?_, ?_⟩
  · rw [hstale]; show _ = s.cachedRestaurants
    rw [hc.2.2.2.2.1, refreshRestaurants_cachedRestaurants, hf.1, h2, hf.2.1]
  · rw [hstale]; show _ = s.cachedUsers
    rw [hc.2.2.2.2.2, refreshUsers_cachedUsers, hreq2, h3, hr.2.2.1, hf.2.2.1]
  · rw [hstale]; exact hc.1
  · intro hfoods t2 done2 hwindow
    apply updateCacheIfNeeded_of_fresh
    · rw [hstamp]; exact hwindow
    · rw [hfoodsEq]; exact hfoods
  · intro hempty t2 done2
    have hempty2 : (updateCacheIfNeeded up t0 t s).2.cachedFoods.len = 0 := by
      rw [hfoodsEq]; exact hempty
    rw [updateCacheIfNeeded_of_stale up t2 done2 _ (Or.inr hempty2)]
    exact (cycle_fields up done2 _).1

/-- Witness of C6, amended, with the upstream down.  With `pizza` cached, a cycle
runs at clock value 0 and ends at 5, and the call at 10 does nothing.  With
nothing cached, the cycle runs because the foods cache is empty, leaves the
collections empty, and the call at 10 issues the three requests again. -/
theorem outage_no_retry_within_window_witness :
    ((updateCacheIfNeeded downUpstream 0 5 pizzaState).2.cachedFoods = pizzaState.cachedFoods ∧
     (updateCacheIfNeeded downUpstream 0 5 pizzaState).2.lastCacheUpdate = 5 ∧
     updateCacheIfNeeded downUpstream 10 11 (updateCacheIfNeeded downUpstream 0 5 pizzaState).2
       = (none, (updateCacheIfNeeded downUpstream 0 5 pizzaState).2)) ∧
    ((updateCacheIfNeeded downUpstream 0 5 (initialState sampleCreatedAt)).2.cachedFoods
       = (initialState sampleCreatedAt).cachedFoods ∧
     (updateCacheIfNeeded downUpstream 0 5 (initialState sampleCreatedAt)).2.cachedUsers
       = (initialState sampleCreatedAt).cachedUsers ∧
     (updateCacheIfNeeded downUpstream 10 11
        (updateCacheIfNeeded downUpstream 0 5 (initialState sampleCreatedAt)).2).2.requests
       = (updateCacheIfNeeded downUpstream 0 5 (initialState sampleCreatedAt)).2.requests
          ++ ["/foods", "/restaurants", "/users"]) :=
  have hp := outage_no_retry_within_window downUpstream 0 5 pizzaState (Or.inl (by decide))
    ⟨_, rfl⟩ ⟨_, rfl⟩ ⟨_, rfl⟩
  have hi := outage_no_retry_within_window downUpstream 0 5 (initialState sampleCreatedAt)
    (Or.inr rfl) ⟨_, rfl⟩ ⟨_, rfl⟩ ⟨_, rfl⟩
  ⟨⟨hp.1, hp.2.2.2.1, hp.2.2.2.2.2.1 (by decide) 10 11 (by decide)⟩,
   ⟨hi.1, hi.2.2.1, hi.2.2.2.2.2.2 rfl 10 11⟩⟩

/-- C7 (the code departs from the claim).  A stale cache holding `pizza` runs one
cycle.  Against `sushiUpstream` the `/foods` request succeeds and its body
decodes without error, on its own to the single food `sushi`; the cache ends
with one food that has the id, name and restaurant of `sushi` and the
description, image, price, category, tags and availability of `pizza`.
Against `brokenUpstream` the decoding of the body fails, and the cache
nevertheless ends with two foods built from that body. -/
theorem refresh_decodes_into_cached_entities :
    fetch sushiUpstream [] "/foods" = .ok sushiBody ∧
    unmarshalFoods Slice.nil sushiBody = (Slice.ofList [sushi], true) ∧
    (unmarshalFoods pizzaState.cachedFoods sushiBody).2 = true ∧
    (updateCacheIfNeeded sushiUpstream 1000 2000 pizzaState).2.cachedFoods.elems
      = [{ pizza with ID := 2, Name := "Sushi", RestaurantID := 2 }] ∧
    (updateCacheIfNeeded sushiUpstream 1000 2000 pizzaState).2.cachedFoods.elems ≠ [sushi] ∧
    fetch brokenUpstream [] "/foods" = .ok brokenBody ∧
    (unmarshalFoods pizzaState.cachedFoods brokenBody).2 = false ∧
    (updateCacheIfNeeded brokenUpstream 1000 2000 pizzaState).2.cachedFoods.elems
      = [{ pizza with ID := 7, Name := "Sushi" }, Food.zero] := by
  have hs : (updateCacheIfNeeded sushiUpstream 1000 2000 pizzaState).2.cachedFoods.elems
      = [{ pizza with ID := 2, Name := "Sushi", RestaurantID := 2 }] := by
    rw [updateCacheIfNeeded_of_stale sushiUpstream 1000 2000 pizzaState (Or.inl (by decide))]
    rw [(cycle_fields sushiUpstream 2000 pizzaState).2.2.2.1, refreshFoods_cachedFoods]
    decide
  refine ⟨rfl, by decide, by decide, hs, ?_, rfl, by decide, ?_⟩
  · rw [hs]; decide
  · rw [updateCacheIfNeeded_of_stale brokenUpstream 1000 2000 pizzaState (Or.inl (by decide))]
    rw [(cycle_fields brokenUpstream 2000 pizzaState).2.2.2.1, refreshFoods_cachedFoods]
    decide

/-! ## Resource query layer: list handlers -/

/-- Counterexample to C8 as stated: the users cache holds `ana`, stamped one
microsecond ago, and the foods cache is empty.  `getUsersHandler` runs a
refresh cycle all the same; against an upstream that answers `[]` the users
cache is emptied, the handler falls back to a fourth request and answers with
its raw body, not with the cached `ana`. -/
theorem list_users_populated_still_fetches :
    0 < anaState.cachedUsers.len ∧
    anaState.cachedUsers.elems = [ana] ∧
    anaState.requests = [] ∧
    (getUsersHandler emptyUpstream 1000 2000 anaState).2.requests
      = ["/foods", "/restaurants", "/users", "/users"] ∧
    (getUsersHandler emptyUpstream 1000 2000 anaState).1.body = .raw (.json (.arr [])) := by
  have hstale := updateCacheIfNeeded_of_stale emptyUpstream 1000 2000 anaState (Or.inr rfl)
  have hc := cycle_fields emptyUpstream 2000 anaState
  have hr := refreshRestaurants_frame emptyUpstream (refreshFoods emptyUpstream anaState)
  have hf := refreshFoods_frame emptyUpstream anaState
  have husers : (updateCacheIfNeeded emptyUpstream 1000 2000 anaState).2.cachedUsers
      = ⟨[], []⟩ := by
    rw [hstale]
    show State.cachedUsers _ = _
    rw [hc.2.2.2.2.2, refreshUsers_cachedUsers, hr.2.2.1, hf.2.2.1]
    rfl
  have hreq : (updateCacheIfNeeded emptyUpstream 1000 2000 anaState).2.requests
      = ["/foods", "/restaurants", "/users"] := by
    rw [hstale]; exact hc.1
  have hlen : ¬ (updateCacheIfNeeded emptyUpstream 1000 2000 anaState).2.cachedUsers.len > 0 := by
    rw [husers]; decide
  refine ⟨by decide, rfl, rfl, ?_, ?_⟩
  · simp only [getUsersHandler, if_neg hlen, makeRequest, hreq]
    rfl
  · simp only [getUsersHandler, if_neg hlen, makeRequest, hreq]
    rfl

/-- A body the encoder accepts reaches the client as it was handed over. -/
theorem written_of_supported (status : Nat) (body : Payload) (h : body.supported = true) :
    (Response.mk status body).written = some body := by
  simp [Response.written, h]

/-- C8, amended.  When the cache is fresh (`now - lastCacheUpdate` under five
minutes and the foods cache non-empty), a list call for a kind whose
collection is non-empty answers 200 and leaves the state as it was: no
upstream request, neither for a refresh nor as a fallback.  When every
`float64` of the cached entities is finite (food price, restaurant rating and
delivery fee; users have none), the body the client receives is exactly the
cached elements of that collection, typed. -/
theorem list_handlers_serve_fresh_cache (up : Upstream) (now done : Int) (s : State)
    (hage : now - s.lastCacheUpdate < cacheDuration) (hfoods : 0 < s.cachedFoods.len) :
    ((getFoodsHandler up now done s).2 = s ∧
     (getFoodsHandler up now done s).1.status = 200 ∧
     ((∀ food ∈ s.cachedFoods.elems, food.Price.finite = true) →
       (getFoodsHandler up now done s).1.written = some (.foods (.array s.cachedFoods.elems)))) ∧
    (0 < s.cachedUsers.len →
      (getUsersHandler up now done s).2 = s ∧
      (getUsersHandler up now done s).1.status = 200 ∧
      (getUsersHandler up now done s).1.written = some (.users (.array s.cachedUsers.elems))) ∧
    (0 < s.cachedRestaurants.len →
      (getRestaurantsHandler up now done s).2 = s ∧
      (getRestaurantsHandler up now done s).1.status = 200 ∧
      ((∀ r ∈ s.cachedRestaurants.elems, r.Rating.finite = true ∧ r.DeliveryFee.finite = true) →
        (getRestaurantsHandler up now done s).1.written
          = some (.restaurants (.array s.cachedRestaurants.elems)))) := by
  have h := updateCacheIfNeeded_of_fresh up now done s hage hfoods
  have hF : getFoodsHandler up now done s = (⟨200, .foods (.array s.cachedFoods.elems)⟩, s) := by
    simp [getFoodsHandler, h, hfoods, Encode]
  refine ⟨⟨by rw [hF], by rw [hF], ?_⟩, ?_, ?_⟩
  · intro hfin
    rw [hF]
    apply written_of_supported
    simp only [Payload.supported, Encoded.supported, List.all_eq_true, Food.supported]
    exact hfin
  · intro hu
    have hU : getUsersHandler up now done s = (⟨200, .users (.array s.cachedUsers.elems)⟩, s) := by
      simp [getUsersHandler, h, hu, Encode]
    refine ⟨by rw [hU], by rw [hU], ?_⟩
    rw [hU]
    exact written_of_supported 200 _ rfl
  · intro hr
    have hR : getRestaurantsHandler up now done s
        = (⟨200, .restaurants (.array s.cachedRestaurants.elems)⟩, s) := by
      simp [getRestaurantsHandler, h, hr, Encode]
    refine ⟨by rw [hR], by rw [hR], ?_⟩
    intro hfin
    rw [hR]
    apply written_of_supported
    simp only [Payload.supported, Encoded.supported, List.all_eq_true, Restaurant.supported,
      Bool.and_eq_true]
    exact hfin

/-- Witness of C8, amended: `pizza` (price 29.90) cached at clock value 0, a list
call one minute later. -/
theorem list_handlers_serve_fresh_cache_witness :
    (getFoodsHandler downUpstream 60000000000 60000000001 freshPizzaState).2 = freshPizzaState ∧
    (getFoodsHandler downUpstream 60000000000 60000000001 freshPizzaState).1.status = 200 ∧
    (getFoodsHandler downUpstream 60000000000 60000000001 freshPizzaState).1.written
      = some (.foods (.array [pizza])) :=
  have h := (list_handlers_serve_fresh_cache downUpstream 60000000000 60000000001
    freshPizzaState (by decide) (by decide)).1
  ⟨h.1, h.2.1, h.2.2 (by decide)⟩

/-! ## Resource query layer: filtered lists -/

/-- The append loop, started from a non-nil slice: the matching foods are
appended in order. -/
theorem foldl_append_some (p : Food → Prop) [DecidablePred p] (foods acc : List Food) :
    foods.foldl (fun filteredFoods food =>
        if p food then appendFood filteredFoods food else filteredFoods) (some acc)
      = some (acc ++ foods.filter (fun food => decide (p food))) := by
  induction foods generalizing acc with
  | nil => simp
  | cons x xs ih =>
    have happ : appendFood (some acc) x = some (acc ++ [x]) := rfl
    by_cases hx : p x
    · rw [List.foldl_cons, if_pos hx, happ, ih]
      simp [List.filter, hx]
    · rw [List.foldl_cons, if_neg hx, ih]
      simp [List.filter, hx]

/-- The append loop, started from the nil slice: the result stays nil until
the first match, and is the matching foods in order afterwards. -/
theorem foldl_append_none (p : Food → Prop) [DecidablePred p] (foods : List Food) :
    foods.foldl (fun filteredFoods food =>
        if p food then appendFood filteredFoods food else filteredFoods) none
      = if foods.filter (fun food => decide (p food)) = [] then none
        else some (foods.filter (fun food => decide (p food))) := by
  induction foods with
  | nil => simp
  | cons x xs ih =>
    have happ : appendFood none x = some [x] := rfl
    by_cases hx : p x
    · rw [List.foldl_cons, if_pos hx, happ, foldl_append_some]
      simp [List.filter, hx]
    · rw [List.foldl_cons, if_neg hx, ih]
      simp [List.filter, hx]

/-- C9 (the code departs from the claim).  Both filter loops yield the matching
foods, in their original order and unmodified, when there is a match; with no
match the slice they build is still nil, and the encoder writes `null` for it,
not an empty array.  On a fresh, non-empty foods cache both handlers answer
200 with the encoding of what the loop built from the cached foods.  At the
cache holding `pizza` (restaurant 1, category "Pizzas") the requests for
restaurant 2 and for category "Bebidas" are answered 200 with body `null`. -/
theorem filtered_handlers_encode_null_without_match :
    (∀ (restaurantID : Int) (foods : List Food),
      Encode (filterByRestaurant restaurantID foods)
        = if foods.filter (fun food => decide (food.RestaurantID = restaurantID)) = []
          then Encoded.null
          else Encoded.array
            (foods.filter (fun food => decide (food.RestaurantID = restaurantID)))) ∧
    (∀ (category : String) (foods : List Food),
      Encode (filterByCategory category foods)
        = if foods.filter (fun food => decide (food.Category = category)) = []
          then Encoded.null
          else Encoded.array (foods.filter (fun food => decide (food.Category = category)))) ∧
    (∀ (up : Upstream) (now done : Int) (segment category : String) (restaurantID : Int)
        (s : State),
      now - s.lastCacheUpdate < cacheDuration → 0 < s.cachedFoods.len →
      Atoi segment = some restaurantID →
      getFoodsByRestaurantHandler up now done segment s
        = (⟨200, .foods (Encode (filterByRestaurant restaurantID s.cachedFoods.elems))⟩, s) ∧
      getFoodsByCategoryHandler up now done category s
        = (⟨200, .foods (Encode (filterByCategory category s.cachedFoods.elems))⟩, s)) ∧
    getFoodsByRestaurantHandler downUpstream 1000 2000 "2" freshPizzaState
      = (⟨200, .foods .null⟩, freshPizzaState) ∧
    getFoodsByCategoryHandler downUpstream 1000 2000 "Bebidas" freshPizzaState
      = (⟨200, .foods .null⟩, freshPizzaState) ∧
    (Encoded.null : Encoded Food) ≠ Encoded.array [] := by
  have hfresh := updateCacheIfNeeded_of_fresh downUpstream 1000 2000 freshPizzaState
    (by decide) (by decide)
  have hlen : freshPizzaState.cachedFoods.len > 0 := by decide
  refine ⟨?_, ?_, ?_, ?_, ?_, by decide⟩
  · intro restaurantID foods
    unfold filterByRestaurant
    rw [foldl_append_none (fun food => food.RestaurantID = restaurantID) foods]
    split_ifs <;> rfl
  · intro category foods
    unfold filterByCategory
    rw [foldl_append_none (fun food => food.Category = category) foods]
    split_ifs <;> rfl
  · intro up now done segment category restaurantID s hage hfoods hatoi
    have h := updateCacheIfNeeded_of_fresh up now done s hage hfoods
    have hpos : s.cachedFoods.len > 0 := hfoods
    constructor
    · simp only [getFoodsByRestaurantHandler, hatoi, h, if_pos hpos]
    · simp only [getFoodsByCategoryHandler, h, if_pos hpos]
  · have hatoi : Atoi "2" = some 2 := by decide
    simp only [getFoodsByRestaurantHandler, hatoi, hfresh, if_pos hlen]
    rfl
  · simp only [getFoodsByCategoryHandler, hfresh, if_pos hlen]
    rfl

/-! ## Numeric path variables -/

/-- Counterexample to C10 as stated: the id segment `99999999999999999999` is a
digit string too large for an `int`; the route `/api/users/{id}` accepts it and
`getUserByIDHandler` sends it upstream.  The answer is 500 when the upstream is
down and 200 when it answers, and in both cases one upstream request was made. -/
theorem user_by_id_oversized_id_reaches_upstream :
    Atoi "99999999999999999999" = none ∧
    (routeUserByID downUpstream "99999999999999999999" (initialState sampleCreatedAt)).1.status
      = 500 ∧
    (routeUserByID downUpstream "99999999999999999999" (initialState sampleCreatedAt)).2.requests
      = ["/users/99999999999999999999"] ∧
    (routeUserByID emptyUpstream "99999999999999999999" (initialState sampleCreatedAt)).1.status
      = 200 ∧
    (routeUserByID emptyUpstream "99999999999999999999" (initialState sampleCreatedAt)).2.requests
      = ["/users/99999999999999999999"] := by
  have hm : matchesDigits "99999999999999999999" = true := by decide
  refine ⟨by decide, ?_, ?_, ?_, ?_⟩ <;>
    simp only [routeUserByID, hm, if_true, getUserByIDHandler, makeRequest] <;> rfl

/-- A segment that is empty or holds a character other than a decimal digit
does not match the route pattern. -/
theorem matchesDigits_eq_false (segment : String)
    (h : segment.toList = [] ∨ ∃ c ∈ segment.toList, ¬ (48 ≤ c.toNat ∧ c.toNat ≤ 57)) :
    matchesDigits segment = false := by
  unfold matchesDigits
  cases hl : segment.toList with
  | nil => rfl
  | cons x xs =>
    rw [hl] at h
    rcases h with h | ⟨c, hc, hnot⟩
    · cases h
    · have hd : (digitVal c).isSome = false := by
        unfold digitVal
        rw [if_neg hnot]; rfl
      show (x :: xs).all (fun d => (digitVal d).isSome) = false
      rw [List.all_eq_false]
      exact ⟨c, hc, by simp [hd]⟩

/-- A non-empty segment of decimal digits matches the route pattern, however
long it is. -/
theorem matchesDigits_eq_true (segment : String)
    (h : segment.toList ≠ [] ∧ ∀ c ∈ segment.toList, 48 ≤ c.toNat ∧ c.toNat ≤ 57) :
    matchesDigits segment = true := by
  unfold matchesDigits
  cases hl : segment.toList with
  | nil => exact absurd hl h.1
  | cons x xs =>
    show (x :: xs).all (fun d => (digitVal d).isSome) = true
    rw [List.all_eq_true]
    intro c hc
    have hdig := h.2 c (hl ▸ hc)
    unfold digitVal
    rw [if_pos hdig]; rfl

/-- C10, amended.  `getFoodsByRestaurantHandler` answers every id segment that
`strconv.Atoi` rejects with 400, without an upstream request and without
touching the state.  On the by-ID routes and the by-restaurant route a segment
that is empty or holds a character other than a decimal digit reaches no
handler: the answer is 404, without an upstream request and without touching
the state; a non-empty string of decimal digits, however long, reaches the
handler.  A by-ID handler does not validate the id it is given: it forwards
the segment in exactly one upstream request for the collection path followed
by the segment, leaves the cache and the orders as they were, and answers 200
with the upstream body when that request succeeds and 500 with the error
message when it fails. -/
theorem malformed_id_handling (up : Upstream) (now done : Int) (segment : String) (s : State) :
    (Atoi segment = none →
      getFoodsByRestaurantHandler up now done segment s
        = (⟨400, .text "ID do restaurante inválido"⟩, s)) ∧
    ((segment.toList = [] ∨ ∃ c ∈ segment.toList, ¬ (48 ≤ c.toNat ∧ c.toNat ≤ 57)) →
      routeUserByID up segment s = (⟨404, .text "404 page not found"⟩, s) ∧
      routeRestaurantByID up segment s = (⟨404, .text "404 page not found"⟩, s) ∧
      routeFoodByID up segment s = (⟨404, .text "404 page not found"⟩, s) ∧
      routeFoodsByRestaurant up now done segment s = (⟨404, .text "404 page not found"⟩, s)) ∧
    ((segment.toList ≠ [] ∧ ∀ c ∈ segment.toList, 48 ≤ c.toNat ∧ c.toNat ≤ 57) →
      routeUserByID up segment s = getUserByIDHandler up segment s ∧
      routeRestaurantByID up segment s = getRestaurantByIDHandler up segment s ∧
      routeFoodByID up segment s = getFoodByIDHandler up segment s ∧
      routeFoodsByRestaurant up now done segment s
        = getFoodsByRestaurantHandler up now done segment s) ∧
    ((∀ data, fetch up s.requests ("/users/" ++ segment) = .ok data →
        getUserByIDHandler up segment s
          = (⟨200, .raw data⟩, { s with requests := s.requests ++ ["/users/" ++ segment] })) ∧
     (∀ err, fetch up s.requests ("/users/" ++ segment) = .error err →
        getUserByIDHandler up segment s
          = (⟨500, .text err⟩, { s with requests := s.requests ++ ["/users/" ++ segment] }))) ∧
    ((∀ data, fetch up s.requests ("/restaurants/" ++ segment) = .ok data →
        getRestaurantByIDHandler up segment s
          = (⟨200, .raw data⟩,
             { s with requests := s.requests ++ ["/restaurants/" ++ segment] })) ∧
     (∀ err, fetch up s.requests ("/restaurants/" ++ segment) = .error err →
        getRestaurantByIDHandler up segment s
          = (⟨500, .text err⟩,
             { s with requests := s.requests ++ ["/restaurants/" ++ segment] }))) ∧
    ((∀ data, fetch up s.requests ("/foods/" ++ segment) = .ok data →
        getFoodByIDHandler up segment s
          = (⟨200, .raw data⟩, { s with requests := s.requests ++ ["/foods/" ++ segment] })) ∧
     (∀ err, fetch up s.requests ("/foods/" ++ segment) = .error err →
        getFoodByIDHandler up segment s
          = (⟨500, .text err⟩, { s with requests := s.requests ++ ["/foods/" ++ segment] }))) := by
  refine ⟨?_, ?_, ?_, ⟨?_, ?_⟩, ⟨?_, ?_⟩, ⟨?_, ?_⟩⟩
  · intro h
    simp [getFoodsByRestaurantHandler, h]
  · intro h
    have hm := matchesDigits_eq_false segment h
    simp [routeUserByID, routeRestaurantByID, routeFoodByID, routeFoodsByRestaurant, hm, notFound]
  · intro h
    have hm := matchesDigits_eq_true segment h
    simp [routeUserByID, routeRestaurantByID, routeFoodByID, routeFoodsByRestaurant, hm]
  · intro data h
    simp [getUserByIDHandler, makeRequest, h]
  · intro err h
    simp [getUserByIDHandler, makeRequest, h]
  · intro data h
    simp [getRestaurantByIDHandler, makeRequest, h]
  · intro err h
    simp [getRestaurantByIDHandler, makeRequest, h]
  · intro data h
    simp [getFoodByIDHandler, makeRequest, h]
  · intro err h
    simp [getFoodByIDHandler, makeRequest, h]

/-- Witness of C10, amended: the segment `abc` is refused by the by-restaurant
handler and by the route; the digit string `99999999999999999999` reaches
`getUserByIDHandler`, which passes on the upstream answer `[]`. -/
theorem malformed_id_handling_witness :
    getFoodsByRestaurantHandler downUpstream 0 0 "abc" (initialState sampleCreatedAt)
      = (⟨400, .text "ID do restaurante inválido"⟩, initialState sampleCreatedAt) ∧
    routeUserByID downUpstream "abc" (initialState sampleCreatedAt)
      = (⟨404, .text "404 page not found"⟩, initialState sampleCreatedAt) ∧
    routeUserByID emptyUpstream "99999999999999999999" (initialState sampleCreatedAt)
      = getUserByIDHandler emptyUpstream "99999999999999999999" (initialState sampleCreatedAt) ∧
    getUserByIDHandler emptyUpstream "99999999999999999999" (initialState sampleCreatedAt)
      = (⟨200, .raw (.json (.arr []))⟩,
         { initialState sampleCreatedAt with
           requests := (initialState sampleCreatedAt).requests
             ++ ["/users/" ++ "99999999999999999999"] }) :=
  have h := malformed_id_handling downUpstream 0 0 "abc" (initialState sampleCreatedAt)
  have hbig := malformed_id_handling emptyUpstream 0 0 "99999999999999999999"
    (initialState sampleCreatedAt)
  ⟨h.1 (by decide), (h.2.1 (Or.inr ⟨'a', by decide, by decide⟩)).1,
   (hbig.2.2.1 ⟨by decide, by decide⟩).1, hbig.2.2.2.1.1 _ rfl⟩

end Delivery
